import Mathlib

/-!
Shallow embedding of `gwsumm/plot/triggers.py` (event-trigger plot classes)
and proofs about the properties its specification states.

The embedding models, from the source:
  - the `pid` property getters of `TriggerDataPlot`, `TriggerHistogramPlot`
    and `TriggerRateDataPlot` (memoization via the `_pid` attribute),
  - `TriggerPlotMixin.allchannels` (tag stripping),
  - the histogram weight guard in `TriggerHistogramPlot.process`,
  - the amplitude-range step in `TriggerHistogramPlot.process`,
  - the rate-cache insertion loop, the key-building branch, and the
    channel-list substitution in `TriggerRateDataPlot.process`,
  - the constructor validation in `TriggerRateDataPlot.__init__`,
  - the per-channel style broadcast in `TriggerDataPlot.process`.

Repository code the claims depend on that is not in the provided sources
(the base `DataPlot.pid` getter and `re_cchar` from `gwsumm.utils`) is
modelled from the specification and marked as such in doc comments.
-/

namespace GwsummTriggers

/-- Modelled from the spec: `gwsumm.utils.re_cchar` substitution used by every
`pid` getter ("sanitized: non-alphanumeric characters replaced"); `re_cchar`
itself lives in `gwsumm/utils.py`, which is not among the provided sources.
Each non-alphanumeric character is replaced by an underscore. -/
def sanitize (s : String) : String :=
  String.mk (s.data.map (fun c => if c.isAlphanum then c else '_'))

/-- Python `str.upper`, character by character. -/
def upperStr (s : String) : String :=
  String.mk (s.data.map Char.toUpper)

/-- Modelled from the spec: the base `DataPlot.pid` getter
(`gwsumm/plot/core.py`, not among the provided sources). Per the spec the
plot identity is "built from base identity plus ..." and is "computed once
and memoized": the base getter returns the memoized `_pid` when present,
otherwise computes the base identity string and stores it in `_pid`.
The first component is the returned string, the second the `_pid`
attribute afterwards (always set). -/
def basePidGet (cache : Option String) (baseIdentity : String) :
    String × Option String :=
  match cache with
  | some p => (p, some p)
  | none => (baseIdentity, some baseIdentity)

/-- State of a `TriggerDataPlot` relevant to its `pid` property:
the ETG name, the three selected columns (`x`, `y`, `color`; `none` or the
empty string are falsy in Python), the base identity computed by the base
class, and the `_pid` memo attribute (absent = `none`). -/
structure TriggerDataPlotState where
  etg : String
  columns : List (Option String)
  baseIdentity : String
  pidCache : Option String
deriving DecidableEq, Repr

/-- Python truthiness of an optional string (`if column:`). -/
def truthy : Option String → Bool
  | some s => s ≠ ""
  | none => false

/-- Embedding of `TriggerDataPlot.pid` (triggers.py lines 104-120).
On a cache miss it calls the base getter (which sets `_pid`), appends
`_<sanitized etg>` and `_<sanitized column>` for each truthy column to
`_pid`, uppercases `_pid` in place, and returns `self.pid` (the now-set
memo). Returns the string produced and the state afterwards. -/
def triggerDataPlotPidGet (s : TriggerDataPlotState) :
    String × TriggerDataPlotState :=
  match s.pidCache with
  | some p => (p, s)
  | none =>
    let base := (basePidGet s.pidCache s.baseIdentity).1
    let p1 := base ++ "_" ++ sanitize s.etg
    let p2 := s.columns.foldl
      (fun acc col => if truthy col then acc ++ "_" ++ sanitize (col.getD "") else acc) p1
    let p3 := upperStr p2
    (p3, { s with pidCache := some p3 })

/-- State of a `TriggerHistogramPlot` relevant to its `pid` property. -/
structure HistPlotState where
  etg : String
  column : Option String
  baseIdentity : String
  pidCache : Option String
deriving DecidableEq, Repr

/-- Embedding of `TriggerHistogramPlot.pid` (triggers.py lines 363-372).
On a cache miss it overwrites `_pid` with `<ETG upper>_<base pid>`, appends
`_<COLUMN upper>` when a column is set, and returns `self.pid`. -/
def triggerHistogramPlotPidGet (s : HistPlotState) : String × HistPlotState :=
  match s.pidCache with
  | some p => (p, s)
  | none =>
    let etg := upperStr (sanitize s.etg)
    let base := (basePidGet s.pidCache s.baseIdentity).1
    let p1 := etg ++ "_" ++ base
    let p2 := if truthy s.column
      then p1 ++ "_" ++ upperStr (sanitize (s.column.getD ""))
      else p1
    (p2, { s with pidCache := some p2 })

/-- State of a `TriggerRateDataPlot` relevant to its `pid` property. -/
structure RatePidState where
  etg : String
  column : Option String
  baseIdentity : String
  pidCache : Option String
deriving DecidableEq, Repr

/-- Embedding of `TriggerRateDataPlot.pid` (triggers.py lines 484-493).
On a cache miss the code builds the ETG-prefixed identity in a LOCAL
variable `pid` (line 490), and for a set column executes
`self.pid += '_<COLUMN>'` (line 492): the getter side of that
read-modify-write returns the `_pid` memoized by the `super()` call on
line 490 (the base identity, without the ETG prefix), and the setter
stores that string with the column appended. The local `pid` (with the
ETG prefix, without the column) is returned; `_pid` never holds it. -/
def triggerRatePidGet (s : RatePidState) : String × RatePidState :=
  match s.pidCache with
  | some p => (p, s)
  | none =>
    let etg := upperStr (sanitize s.etg)
    let super := basePidGet s.pidCache s.baseIdentity
    let pid := etg ++ "_" ++ super.1
    if truthy s.column then
      let cur := super.2.getD super.1
      (pid, { s with pidCache := some (cur ++ "_" ++ upperStr (sanitize (s.column.getD ""))) })
    else
      (pid, { s with pidCache := super.2 })

/-- Embedding of `TriggerPlotMixin.allchannels` (triggers.py lines 65-70):
`re.split('[#@]', str(c), 1)[0]` keeps the part of the identifier before
the first `#` or `@`. -/
def stripTag (s : String) : String :=
  String.mk (s.toList.takeWhile (fun c => c ≠ '#' ∧ c ≠ '@'))

/-- Embedding of `TriggerPlotMixin.allchannels` (triggers.py lines 65-70):
a list comprehension mapping `stripTag` over the stored channel
identifiers, wrapped in a `ChannelList` (a `list` subclass; the wrapping
preserves the elements and their multiplicity). -/
def allchannels (chans : List String) : List String :=
  chans.map stripTag

/-- The value standing for the `weights` keyword in
`TriggerHistogramPlot.process` (triggers.py lines 424-431): the popped
configuration value is `True` (the per-channel rate-weighting sentinel),
`None` (absent), or a numeric weight. -/
inductive HistWeight where
  | sentinelTrue : HistWeight
  | noweight : HistWeight
  | val (q : ℚ) : HistWeight
deriving DecidableEq, Repr

/-- Embedding of the weight guard in `TriggerHistogramPlot.process`
(triggers.py lines 427-431): when the popped `weights` is the sentinel
`True`, the code tries `weights = 1/d`; a `ZeroDivisionError` (live time
`d == 0`) is caught by `pass`, which leaves `weights` bound to the
sentinel `True` — the variable is not reassigned. Any other popped value
passes through unchanged. -/
def effectiveWeight (w : HistWeight) (d : ℚ) : HistWeight :=
  match w with
  | .sentinelTrue => if d = 0 then .sentinelTrue else .val (1 / d)
  | w => w

/-- The weight guard as the specification describes it ("given live time
`d`, the effective weight equals `1/d` when `d != 0`, and falls back to no
weighting when `d == 0`"), for comparison with `effectiveWeight`. -/
def effectiveWeightSpec (w : HistWeight) (d : ℚ) : HistWeight :=
  match w with
  | .sentinelTrue => if d = 0 then .noweight else .val (1 / d)
  | w => w

/-- A channel as seen by the amplitude-range step of
`TriggerHistogramPlot.process`: its name and, when the resolved channel
object carries one, its `amplitude_range` attribute (checked with
`hasattr`); an unresolved raw-string channel carries none. -/
structure HistChannel where
  name : String
  amplitudeRange : Option (ℚ × ℚ)
deriving DecidableEq, Repr

/-- Embedding of the amplitude-range step of `TriggerHistogramPlot.process`
(triggers.py lines 414-416): when `hasattr(channel, 'amplitude_range')`,
the code evaluates `self.pargs.setdefault('xlim', c.amplitude_range)` —
but no variable `c` is bound anywhere in this method or module scope, so
the attribute access raises `NameError` before `setdefault` runs. When the
attribute is absent the step is skipped and `pargs` is unchanged. `pargs`
is modelled as an association list; an `Except.error` models the raised
exception. -/
def histApplyXlimDefault (ch : HistChannel) (pargs : List (String × (ℚ × ℚ))) :
    Except String (List (String × (ℚ × ℚ))) :=
  match ch.amplitudeRange with
  | some _ => .error "NameError: name c is not defined"
  | none => .ok pargs

/-- A synthetic rate time series, as produced in
`TriggerRateDataPlot.process`: the external rate utility returns the data,
and line 547 tags the series with its source channel
(`rate.channel = channel`). -/
structure RateSeries where
  channel : String
  data : List ℚ
deriving DecidableEq, Repr

/-- The global time-series cache `globalv.DATA`, modelled as an
association list from key to stored series. -/
abbrev RateCache : Type := List (String × RateSeries)

/-- Keys present in the cache (`key in globalv.DATA`). -/
def cacheKeys (c : RateCache) : List String :=
  c.map Prod.fst

/-- Embedding of triggers.py lines 551-552: `add_timeseries(rate, key)` is
executed only when `key not in globalv.DATA`; otherwise the cache is left
alone. -/
def addIfAbsent (c : RateCache) (k : String) (v : RateSeries) : RateCache :=
  if k ∈ cacheKeys c then c else c ++ [(k, v)]

/-- Embedding of the composite cache key built on triggers.py lines
548-550: `'%s_%s_EVENT_RATE_%s_%s' % (channel, etg, column, bin)`. -/
def rateKey (channel etg column bin : String) : String :=
  channel ++ "_" ++ etg ++ "_EVENT_RATE_" ++ column ++ "_" ++ bin

/-- Parameters of one `TriggerRateDataPlot.process` run that determine the
cache keys: the channel list, the ETG, the optional grouping column and
the configured bins. -/
structure RateProcParams where
  channels : List String
  etg : String
  column : Option String
  bins : List String
deriving DecidableEq, Repr

/-- Bins iterated by the insertion loop (triggers.py lines 505-510 and
546): the configured bins when a column is set, else the single
unconditional bin `['_']`. -/
def procBins (p : RateProcParams) : List String :=
  match p.column with
  | some _ => p.bins
  | none => ["_"]

/-- The `str(self.column)` component of the key: Python renders an unset
column (`None`) as the string `"None"`. -/
def columnStr (p : RateProcParams) : String :=
  match p.column with
  | some c => c
  | none => "None"

/-- Key/series pairs generated for one channel by the inner loop on
triggers.py lines 546-552; `rateOf` stands for the external rate
computation (`event_rate` / `binned_event_rates`), a pure function of
channel and bin for fixed table, stride and span. -/
def chanPairs (p : RateProcParams) (rateOf : String → String → List ℚ)
    (ch : String) : List (String × RateSeries) :=
  (procBins p).map (fun b => (rateKey ch p.etg (columnStr p) b, ⟨ch, rateOf ch b⟩))

/-- Insert a list of key/series pairs in order, each skipped when its key
is already present. -/
def insertList : RateCache → List (String × RateSeries) → RateCache
  | c, [] => c
  | c, kv :: t => insertList (addIfAbsent c kv.1 kv.2) t

/-- Embedding of the cache effect of the generate-data loop of
`TriggerRateDataPlot.process` (triggers.py lines 529-552): for each
channel, for each bin (outer loop over channels, inner loop over the
`zip` of bins and computed rates, flattened here in the identical
visiting order), build the composite key and insert the computed rate
series when the key is absent. -/
def rateInsertLoop (p : RateProcParams) (rateOf : String → String → List ℚ)
    (cache : RateCache) : RateCache :=
  insertList cache (p.channels.flatMap (chanPairs p rateOf))

/-- Embedding of the constructor validation of
`TriggerRateDataPlot.__init__` (triggers.py lines 474-479), which runs
before `super().__init__` and hence before any processing: a missing
`stride` keyword raises a `ValueError`, and a `column` keyword without a
`bins` keyword raises a `ValueError`. `kwargs` is modelled by its list of
keyword names. -/
def rateInitCheck (kwargs : List String) : Except String Unit :=
  if "stride" ∉ kwargs then
    .error "ValueError: stride must be configured for all rate plots."
  else if "column" ∈ kwargs ∧ "bins" ∉ kwargs then
    .error "ValueError: bins must be configured for rate plots if column is given."
  else
    .ok ()

/-- Whether the constructor validation raises. -/
def raisesConfigError (kwargs : List String) : Bool :=
  match rateInitCheck kwargs with
  | .error _ => true
  | .ok _ => false

/-- Python `'#' in channel` membership test. -/
def containsChar (s : String) (c : Char) : Bool :=
  s.data.contains c

/-- Embedding of the key-building branch of `TriggerRateDataPlot.process`
(triggers.py lines 535-538): when the channel identifier contains `#` or
`@`, the taken branch evaluates `state and str(state) or 'All'` — but no
local or global `state` is bound in that method (the resolved state is
named `valid`), so a `NameError` is raised; otherwise the key is the plain
channel string. -/
def rateChannelKey (channel : String) : Except String String :=
  if containsChar channel '#' ∨ containsChar channel '@' then
    .error "NameError: name state is not defined"
  else
    .ok channel

/-- The key-building step applied across the channel loop of
`TriggerRateDataPlot.process`: the first tagged channel aborts the loop
with the `NameError`. -/
def rateProcessKeys (channels : List String) : Except String (List String) :=
  channels.mapM rateChannelKey

/-- A scalar Python value as it appears among the style options of
`TriggerDataPlot.process`: `None`, a string, or a number. -/
inductive PyVal where
  | pyNone : PyVal
  | str (s : String) : PyVal
  | num (n : Int) : PyVal
deriving DecidableEq, Repr

/-- A configured style option before broadcasting: a scalar value, or a
sequence (`list`/`tuple`) to be cycled. -/
inductive StyleOpt where
  | scalar (v : PyVal) : StyleOpt
  | seq (vs : List PyVal) : StyleOpt
deriving DecidableEq, Repr

/-- A value assigned into a per-channel style dictionary: one element
drawn from a cycle, or — for a `size_range` sequence — the whole list. -/
inductive StyleVal where
  | single (v : PyVal) : StyleVal
  | wholeSeq (vs : List PyVal) : StyleVal
deriving DecidableEq, Repr

/-- The fixed list of per-channel style keys broadcast in
`TriggerDataPlot.process` (triggers.py lines 167-168), in source order. -/
def styleKeys : List String :=
  ["vmin", "vmax", "edgecolor", "facecolor", "size_by",
   "size_by_log", "size_range", "cmap", "s", "marker"]

/-- Modelled from the spec: the default colour palette behind
`gwpy.plotter.utils.color_cycle` (an endless cycle over a fixed non-empty
palette; gwpy is an external library). Only non-emptiness and cyclic order
matter to the claims. -/
def colorPalette : List PyVal :=
  [.str "blue", .str "green", .str "red", .str "cyan",
   .str "magenta", .str "yellow", .str "black"]

/-- Modelled from the spec: the default marker sequence behind
`gwpy.plotter.utils.marker_cycle` (an endless cycle over a fixed
non-empty marker list; gwpy is an external library). -/
def markerPalette : List PyVal :=
  [.str "o", .str "x", .str "+", .str "^", .str "D", .str "H", .str "1"]

/-- The first `n` values drawn from `itertools.cycle(vs)`:
`cycleTake vs n` is the list of `vs[i % len(vs)]` for `i < n`. Meaningful
only for `vs ≠ []` or `n = 0` (a `.next()` on an empty cycle raises
`StopIteration`, handled by the caller). -/
def cycleTake (vs : List PyVal) (n : Nat) : List StyleVal :=
  (List.range n).map (fun i => .single (vs.getD (i % vs.length) .pyNone))

/-- Embedding of the per-key broadcast of `TriggerDataPlot.process`
(triggers.py lines 169-180) for one key: the `n` values assigned to the
`n` per-channel dictionaries, or `none` when the `n` calls to
`val.next()` would raise `StopIteration` (empty configured sequence with
`n > 0`).

Control flow of the source: a `None` facecolor with more than one channel
becomes `color_cycle()` (an endless cycle over the palette, so wrapping it
again in `cycle` on line 176 yields the same value stream); then a `None`
marker with more than one channel becomes `marker_cycle()`; otherwise a
`list`/`tuple`/`cycle` value for a key other than `size_range` is cycled
element-wise, and anything else (a scalar, or a `size_range` sequence
taken whole) is repeated `n` times via `cycle([val] * n)`. -/
def broadcastResolved (key : String) (val : StyleOpt) (n : Nat) :
    Option (List StyleVal) :=
  if key = "marker" ∧ 1 < n ∧ val = .scalar .pyNone then
    some (cycleTake markerPalette n)
  else
    match val with
    | .seq vs =>
      if key = "size_range" then
        some (List.replicate n (.wholeSeq vs))
      else if vs = [] ∧ n ≠ 0 then
        none
      else
        some (cycleTake vs n)
    | .scalar v => some (List.replicate n (.single v))

/-- The per-key broadcast, after first rewriting a `None` facecolor with
multiple channels to the colour palette cycle (triggers.py lines
170-171); `broadcastResolved` then applies lines 172-180. -/
def broadcastOption (key : String) (val : StyleOpt) (n : Nat) :
    Option (List StyleVal) :=
  broadcastResolved key
    (if key = "facecolor" ∧ 1 < n ∧ val = .scalar .pyNone
      then .seq colorPalette else val) n

/-- One per-channel style dictionary, as an association list in insertion
order (the ten style keys are pairwise distinct, so `d[key] = v` is an
append). -/
abbrev StyleDict : Type := List (String × StyleVal)

/-- Assign each key of `keys` into every one of the dictionaries
(triggers.py lines 166-180): resolve the key's configured value, then
`plotargs[i][key] = val.next()` for each `i`. Aborts with `none` when a
resolution raises `StopIteration`. -/
def assignKeys (cfg : String → StyleOpt) (n : Nat) :
    List String → List StyleDict → Option (List StyleDict)
  | [], dicts => some dicts
  | k :: ks, dicts =>
    match broadcastOption k (cfg k) n with
    | some vals => assignKeys cfg n ks ((dicts.zip vals).map (fun p => p.1 ++ [(k, p.2)]))
    | none => none

/-- Embedding of the style-broadcast step of `TriggerDataPlot.process`
(triggers.py lines 162-180): start from `n` empty dictionaries (one per
channel, lines 163-165) and assign each of the ten style keys into each. -/
def broadcastStyles (cfg : String → StyleOpt) (n : Nat) :
    Option (List StyleDict) :=
  assignKeys cfg n styleKeys (List.replicate n [])

/-- The observable state of a `TriggerRateDataPlot` around the final
channel-substitution step of `process`: only the channel list matters to
the claims. The base-class channel accessor pair (`gwsumm/plot/core.py`,
not among the provided sources) is modelled from the spec as plain list
storage, per spec 4.1 ("trigger-plots store raw identifiers"). -/
structure RatePlotState where
  channels : List String
deriving DecidableEq, Repr

/-- Embedding of the tail of `TriggerRateDataPlot.process` (triggers.py
lines 554-560): save the channel list, substitute the synthetic
rate-series keys, delegate to the base `process` (modelled as a function
from the substituted state to an output or a raised exception; the base
time-series `process` renders from the cache and does not reassign the
channel list), and restore the saved list ONLY on normal return — the
source has no `try/finally`, so a raised exception propagates with the
substituted list still in place. Returns the state of the object
afterwards together with the outcome. -/
def rateProcessFinal (s : RatePlotState) (keys : List String)
    (delegate : RatePlotState → Except String Nat) :
    RatePlotState × Except String Nat :=
  let saved := s.channels
  let s1 : RatePlotState := { s with channels := keys }
  match delegate s1 with
  | .ok out => ({ s1 with channels := saved }, .ok out)
  | .error e => (s1, .error e)

/-! Theorems. -/

/-- A second read of `TriggerDataPlot.pid` returns what the first read
stored: this class's getter memoizes correctly. -/
theorem triggerDataPlot_pid_memoized (s : TriggerDataPlotState) :
    (triggerDataPlotPidGet (triggerDataPlotPidGet s).2).1 =
      (triggerDataPlotPidGet s).1 := by
  unfold triggerDataPlotPidGet
  cases h : s.pidCache <;> simp [h]

/-- A second read of `TriggerHistogramPlot.pid` returns what the first
read stored: this class's getter memoizes correctly. -/
theorem triggerHistogramPlot_pid_memoized (s : HistPlotState) :
    (triggerHistogramPlotPidGet (triggerHistogramPlotPidGet s).2).1 =
      (triggerHistogramPlotPidGet s).1 := by
  unfold triggerHistogramPlotPidGet
  cases h : s.pidCache <;> simp [h]

/-- C1: the claim states that reading `pid` twice on every trigger plot
object returns the identical string both times. For a fresh
`TriggerRateDataPlot` with ETG `omicron`, no column, and base identity
`abc123`, the first read returns `OMICRON_abc123` while the second read
returns `abc123`: the two reads differ, because the getter builds the
ETG-prefixed identity in a local variable and never stores it in `_pid`
(triggers.py lines 484-493). -/
theorem c1_rate_pid_two_reads_differ :
    (triggerRatePidGet ⟨"omicron", none, "abc123", none⟩).1 = "OMICRON_abc123" ∧
    (triggerRatePidGet (triggerRatePidGet ⟨"omicron", none, "abc123", none⟩).2).1
      = "abc123" ∧
    (triggerRatePidGet ⟨"omicron", none, "abc123", none⟩).1 ≠
      (triggerRatePidGet (triggerRatePidGet ⟨"omicron", none, "abc123", none⟩).2).1 := by
  refine ⟨rfl, rfl, ?_⟩
  decide

/-- C2: the claim states that `allchannels` returns the deduplicated set
of tag-stripped channel identifiers. On the channel list
`['X1:TEST#a', 'X1:TEST@b']` the code strips both tags but keeps both
occurrences: the result is `['X1:TEST', 'X1:TEST']`, a list with a
duplicate, contradicting the docstring "all unique channels"
(triggers.py lines 65-70). -/
theorem c2_allchannels_keeps_duplicates :
    allchannels ["X1:TEST#a", "X1:TEST@b"] = ["X1:TEST", "X1:TEST"] ∧
    ¬ (allchannels ["X1:TEST#a", "X1:TEST@b"]).Nodup := by
  refine ⟨rfl, ?_⟩
  decide

/-- C3 counterexample: at live time `d = 0` the guarded weight is NOT the
spec's "no weighting": the `except ZeroDivisionError: pass` leaves the
sentinel `True` in the `weights` variable, which is then passed to the
histogram call. -/
theorem c3_weight_zero_not_unweighted :
    effectiveWeight .sentinelTrue 0 ≠ effectiveWeightSpec .sentinelTrue 0 ∧
    effectiveWeight .sentinelTrue 0 = .sentinelTrue := by
  constructor
  · simp [effectiveWeight, effectiveWeightSpec]
  · simp [effectiveWeight]

/-- C3 amended: with `weights=True` requested, the effective weight equals
`1/d` whenever the live time `d` is non-zero; at `d = 0` the
`ZeroDivisionError` is caught and the histogram call receives the
unchanged sentinel `True` rather than falling back to unweighted. -/
theorem c3_weight_guard (d : ℚ) (h : d ≠ 0) :
    effectiveWeight .sentinelTrue d = .val (1 / d) ∧
    effectiveWeight .sentinelTrue 0 = .sentinelTrue := by
  constructor
  · simp [effectiveWeight, h]
  · simp [effectiveWeight]

/-- C3 witness: the amended guard at the concrete live time `d = 2`. -/
theorem c3_weight_guard_witness :
    (2 : ℚ) ≠ 0 ∧
    (effectiveWeight .sentinelTrue 2 = .val (1 / 2) ∧
      effectiveWeight .sentinelTrue 0 = .sentinelTrue) :=
  ⟨by norm_num, c3_weight_guard 2 (by norm_num)⟩

theorem mem_cacheKeys_addIfAbsent {c : RateCache} {k' : String}
    (k : String) (v : RateSeries) (h : k' ∈ cacheKeys c) :
    k' ∈ cacheKeys (addIfAbsent c k v) := by
  unfold addIfAbsent
  split
  · exact h
  · simp only [cacheKeys, List.map_append, List.mem_append]
    exact Or.inl h

theorem mem_cacheKeys_addIfAbsent_self (c : RateCache) (k : String)
    (v : RateSeries) : k ∈ cacheKeys (addIfAbsent c k v) := by
  unfold addIfAbsent
  split
  · assumption
  · simp [cacheKeys]

theorem addIfAbsent_of_mem {c : RateCache} {k : String} (v : RateSeries)
    (h : k ∈ cacheKeys c) : addIfAbsent c k v = c := by
  simp [addIfAbsent, h]

theorem mem_cacheKeys_insertList {k : String}
    (l : List (String × RateSeries)) (c : RateCache)
    (h : k ∈ cacheKeys c) : k ∈ cacheKeys (insertList c l) := by
  induction l generalizing c with
  | nil => exact h
  | cons kv t ih =>
    exact ih _ (mem_cacheKeys_addIfAbsent kv.1 kv.2 h)

theorem insertList_mem_of_mem (l : List (String × RateSeries))
    (c : RateCache) : ∀ kv ∈ l, kv.1 ∈ cacheKeys (insertList c l) := by
  induction l generalizing c with
  | nil => intro kv h; cases h
  | cons kv0 t ih =>
    intro kv h
    rcases List.mem_cons.mp h with h | h
    · subst h
      exact mem_cacheKeys_insertList t _ (mem_cacheKeys_addIfAbsent_self c kv.1 kv.2)
    · exact ih _ kv h

theorem insertList_noop (l : List (String × RateSeries)) (c : RateCache)
    (h : ∀ kv ∈ l, kv.1 ∈ cacheKeys c) : insertList c l = c := by
  induction l with
  | nil => rfl
  | cons kv t ih =>
    show insertList (addIfAbsent c kv.1 kv.2) t = c
    rw [addIfAbsent_of_mem kv.2 (h kv (List.mem_cons_self kv t))]
    exact ih (fun kv2 h2 => h kv2 (List.mem_cons_of_mem kv h2))

/-- C4: the rate-cache insertion loop of `TriggerRateDataPlot.process` is
idempotent — running it a second time over a cache it already populated
changes nothing — and every computed rate series is recorded under the
deterministic composite key `channel_etg_EVENT_RATE_column_bin`
(triggers.py lines 546-552). -/
theorem c4_rate_cache_idempotent (p : RateProcParams)
    (rateOf : String → String → List ℚ) (cache : RateCache) :
    rateInsertLoop p rateOf (rateInsertLoop p rateOf cache) =
      rateInsertLoop p rateOf cache ∧
    ∀ ch ∈ p.channels, ∀ b ∈ procBins p,
      rateKey ch p.etg (columnStr p) b ∈
        cacheKeys (rateInsertLoop p rateOf cache) := by
  constructor
  · exact insertList_noop _ _ (fun kv h => insertList_mem_of_mem _ _ kv h)
  · intro ch hch b hb
    have hmem : (rateKey ch p.etg (columnStr p) b,
        (⟨ch, rateOf ch b⟩ : RateSeries)) ∈
        p.channels.flatMap (chanPairs p rateOf) := by
      refine List.mem_flatMap.mpr ⟨ch, hch, ?_⟩
      simp only [chanPairs, List.mem_map]
      exact ⟨b, hb, rfl⟩
    exact insertList_mem_of_mem _ _ _ hmem

/-- C4 witness: the second conjunct at a concrete run — the composite key
for channel `X1:TEST`, ETG `omicron`, column `snr`, bin `5` is present in
the populated cache. -/
theorem c4_rate_cache_idempotent_witness :
    rateKey "X1:TEST" "omicron" "snr" "5" ∈
      cacheKeys (rateInsertLoop ⟨["X1:TEST"], "omicron", some "snr", ["5"]⟩
        (fun _ _ => []) []) :=
  (c4_rate_cache_idempotent ⟨["X1:TEST"], "omicron", some "snr", ["5"]⟩
    (fun _ _ => []) []).2 "X1:TEST" (by decide) "5" (by decide)

/-- C5: the `TriggerRateDataPlot` constructor validation raises a
configuration error exactly when required configuration is missing: no
`stride` keyword, or a `column` keyword without a `bins` keyword
(triggers.py lines 474-479, executed before the base constructor and
before any processing). -/
theorem c5_rate_init_raises_iff (kwargs : List String) :
    raisesConfigError kwargs = true ↔
      ("stride" ∉ kwargs ∨ ("column" ∈ kwargs ∧ "bins" ∉ kwargs)) := by
  unfold raisesConfigError rateInitCheck
  split_ifs with h1 h2 <;> simp_all

theorem broadcastResolved_length {key : String} {val : StyleOpt} {n : Nat}
    {l : List StyleVal} (h : broadcastResolved key val n = some l) :
    l.length = n := by
  unfold broadcastResolved at h
  by_cases hm : key = "marker" ∧ 1 < n ∧ val = StyleOpt.scalar PyVal.pyNone
  · rw [if_pos hm] at h
    cases h
    simp [cycleTake]
  · rw [if_neg hm] at h
    cases val with
    | scalar v =>
      dsimp only at h
      cases h
      simp
    | seq vs =>
      dsimp only at h
      by_cases hs : key = "size_range"
      · rw [if_pos hs] at h
        cases h
        simp
      · rw [if_neg hs] at h
        by_cases he : vs = [] ∧ n ≠ 0
        · rw [if_pos he] at h
          cases h
        · rw [if_neg he] at h
          cases h
          simp [cycleTake]

theorem broadcastOption_length {key : String} {val : StyleOpt} {n : Nat}
    {l : List StyleVal} (h : broadcastOption key val n = some l) :
    l.length = n := by
  unfold broadcastOption at h
  exact broadcastResolved_length h

theorem assignKeys_spec (cfg : String → StyleOpt) (n : Nat) :
    ∀ (keys : List String) (dicts : List StyleDict) (pre : List String),
    (∀ k ∈ keys, (broadcastOption k (cfg k) n).isSome) →
    dicts.length = n →
    (∀ d ∈ dicts, d.map Prod.fst = pre) →
    ∃ dicts2, assignKeys cfg n keys dicts = some dicts2 ∧
      dicts2.length = n ∧ ∀ d ∈ dicts2, d.map Prod.fst = pre ++ keys := by
  intro keys
  induction keys with
  | nil =>
    intro dicts pre _ hlen hpre
    exact ⟨dicts, rfl, hlen, fun d hd => by simpa using hpre d hd⟩
  | cons k ks ih =>
    intro dicts pre hsome hlen hpre
    obtain ⟨vals, hvals⟩ :=
      Option.isSome_iff_exists.mp (hsome k (List.mem_cons_self k ks))
    have hvlen : vals.length = n := broadcastOption_length hvals
    have hstep : assignKeys cfg n (k :: ks) dicts =
        assignKeys cfg n ks ((dicts.zip vals).map (fun p => p.1 ++ [(k, p.2)])) := by
      simp [assignKeys, hvals]
    rw [hstep]
    have hlen2 : ((dicts.zip vals).map (fun p => p.1 ++ [(k, p.2)])).length = n := by
      simp [List.length_zip, hlen, hvlen]
    have hpre2 : ∀ d ∈ (dicts.zip vals).map (fun p => p.1 ++ [(k, p.2)]),
        d.map Prod.fst = pre ++ [k] := by
      intro d hd
      obtain ⟨p, hp, rfl⟩ := List.mem_map.mp hd
      have hp1 : p.1 ∈ dicts := (List.of_mem_zip hp).1
      simp [hpre p.1 hp1]
    obtain ⟨dicts2, h1, h2, h3⟩ := ih _ (pre ++ [k])
      (fun k2 hk2 => hsome k2 (List.mem_cons_of_mem k hk2)) hlen2 hpre2
    refine ⟨dicts2, h1, h2, fun d hd => ?_⟩
    rw [h3 d hd]
    simp

/-- C6: with every configured style option broadcastable (a scalar, or a
sequence whose cycle can serve each channel — the `.next()` calls do not
raise), the style-broadcast step of `TriggerDataPlot.process` produces
exactly `n` per-channel style dictionaries, one per channel in channel
order, and every one of the ten fixed style options is assigned in each,
in the deterministic source order of the keys (triggers.py lines
162-180). -/
theorem c6_style_broadcast (cfg : String → StyleOpt) (n : Nat)
    (h : ∀ k ∈ styleKeys, (broadcastOption k (cfg k) n).isSome) :
    ∃ dicts, broadcastStyles cfg n = some dicts ∧ dicts.length = n ∧
      ∀ d ∈ dicts, d.map Prod.fst = styleKeys := by
  obtain ⟨dicts2, h1, h2, h3⟩ := assignKeys_spec cfg n styleKeys
    (List.replicate n []) [] h (by simp) (by intro d hd; simp [List.eq_of_mem_replicate hd])
  exact ⟨dicts2, h1, h2, fun d hd => by simpa using h3 d hd⟩

/-- C6 witness: the broadcast at the concrete configuration where every
option is the scalar `None` (exercising the facecolor and marker palette
cycling) and two channels. -/
theorem c6_style_broadcast_witness :
    (∀ k ∈ styleKeys,
      (broadcastOption k ((fun _ => StyleOpt.scalar .pyNone) k) 2).isSome) ∧
    ∃ dicts, broadcastStyles (fun _ => StyleOpt.scalar .pyNone) 2 = some dicts ∧
      dicts.length = 2 ∧ ∀ d ∈ dicts, d.map Prod.fst = styleKeys :=
  ⟨by decide, c6_style_broadcast (fun _ => StyleOpt.scalar .pyNone) 2 (by decide)⟩

/-- C7: when the delegated base-class `process` returns normally, the
channel-substitution step of `TriggerRateDataPlot.process` restores the
channel list, so the plot object's external channel identity is unchanged
(triggers.py lines 554-560). -/
theorem c7_channels_restored (s : RatePlotState) (keys : List String)
    (delegate : RatePlotState → Except String Nat) (out : Nat)
    (h : delegate { s with channels := keys } = .ok out) :
    (rateProcessFinal s keys delegate).1.channels = s.channels := by
  simp [rateProcessFinal, h]

/-- C7 witness: the restoration at a concrete state, key list and
normally-returning delegate. -/
theorem c7_channels_restored_witness :
    ((fun _ => Except.ok 0) : RatePlotState → Except String Nat)
        { channels := ["X1:TEST_omicron_EVENT_RATE_None__"] } = .ok 0 ∧
    (rateProcessFinal ⟨["X1:TEST"]⟩ ["X1:TEST_omicron_EVENT_RATE_None__"]
        (fun _ => Except.ok 0)).1.channels = ["X1:TEST"] :=
  ⟨rfl, c7_channels_restored ⟨["X1:TEST"]⟩ ["X1:TEST_omicron_EVENT_RATE_None__"]
    (fun _ => Except.ok 0) 0 rfl⟩

/-- C8 counterexample: the claim states the `state`-referencing branch of
the key construction is never executed on any input `process` runs on —
but for the channel list `['X1:TEST#foo']` the loop takes that branch
(the identifier contains `#`) and the undefined-name evaluation occurs. -/
theorem c8_state_branch_taken :
    rateProcessKeys ["X1:TEST#foo"] =
      .error "NameError: name state is not defined" := by
  rfl

/-- C8 amended: the `state`-referencing branch is executed exactly for
channel identifiers containing `#` or `@`; for channel lists carrying no
such tag it is never executed, every key is the plain channel string, and
no undefined-name evaluation occurs. -/
theorem c8_state_branch_dead_iff_untagged (channels : List String)
    (h : ∀ ch ∈ channels, ¬(containsChar ch '#' ∨ containsChar ch '@')) :
    rateProcessKeys channels = .ok channels := by
  induction channels with
  | nil => rfl
  | cons c t ih =>
    have hc : ¬(containsChar c '#' ∨ containsChar c '@') :=
      h c (List.mem_cons_self c t)
    have ht := ih (fun ch hm => h ch (List.mem_cons_of_mem c hm))
    have hkey : rateChannelKey c = Except.ok c := by
      unfold rateChannelKey
      rw [if_neg hc]
    simp only [rateProcessKeys] at ht ⊢
    rw [List.mapM_cons, hkey, ht]
    rfl

/-- C8 witness: the amended statement at a concrete untagged channel
list. -/
theorem c8_state_branch_dead_witness :
    (∀ ch ∈ ["X1:TEST", "X1:GDS-CALIB_STRAIN"],
      ¬(containsChar ch '#' ∨ containsChar ch '@')) ∧
    rateProcessKeys ["X1:TEST", "X1:GDS-CALIB_STRAIN"] =
      .ok ["X1:TEST", "X1:GDS-CALIB_STRAIN"] :=
  ⟨by decide, c8_state_branch_dead_iff_untagged _ (by decide)⟩

/-- C9: for a channel carrying an `amplitude_range` attribute, the
amplitude-range step of `TriggerHistogramPlot.process` does not apply the
range as a default x-limit: it raises `NameError`, because line 416
evaluates the undefined name `c` instead of `channel`. -/
theorem c9_amplitude_range_step_raises :
    histApplyXlimDefault ⟨"L1:TEST", some (1, 10)⟩ [] =
      .error "NameError: name c is not defined" := by
  rfl

/-- C10: when the delegated base-class `process` raises, the exception
propagates and the channel list is left holding the synthetic rate-series
keys: the substitution step of `TriggerRateDataPlot.process` has no
restore on the error path (triggers.py lines 554-560 contain no
`try/finally`). -/
theorem c10_channels_left_substituted_on_error (s : RatePlotState)
    (keys : List String) (delegate : RatePlotState → Except String Nat)
    (e : String) (h : delegate { s with channels := keys } = .error e) :
    (rateProcessFinal s keys delegate).2 = .error e ∧
    (rateProcessFinal s keys delegate).1.channels = keys := by
  simp [rateProcessFinal, h]

/-- C10 witness: the error path at a concrete state, key list and raising
delegate. -/
theorem c10_channels_left_substituted_witness :
    ((fun _ => Except.error "rendering failed") :
        RatePlotState → Except String Nat)
        { channels := ["X1:TEST_omicron_EVENT_RATE_None__"] } =
      .error "rendering failed" ∧
    ((rateProcessFinal ⟨["X1:TEST"]⟩ ["X1:TEST_omicron_EVENT_RATE_None__"]
        (fun _ => Except.error "rendering failed")).2 =
          .error "rendering failed" ∧
     (rateProcessFinal ⟨["X1:TEST"]⟩ ["X1:TEST_omicron_EVENT_RATE_None__"]
        (fun _ => Except.error "rendering failed")).1.channels =
          ["X1:TEST_omicron_EVENT_RATE_None__"]) :=
  ⟨rfl, c10_channels_left_substituted_on_error ⟨["X1:TEST"]⟩
    ["X1:TEST_omicron_EVENT_RATE_None__"]
    (fun _ => Except.error "rendering failed") "rendering failed" rfl⟩

end GwsummTriggers
